import Mathlib

/-!
Verification of sra-repo: the set-group-id launcher `wrapper.c`

A shallow embedding of `src/sra_repo/wrapper.c`.  The program is a single `main`
that makes four C library calls in sequence:

    setregid(getegid(), getegid());
    execv("./script_wrapped", argv);
    perror("execv");
    return 1;

The C library / kernel is not part of the repository.  It is modelled by its
POSIX behaviour on an explicit process state `Proc`; whether `setregid` and
`execv` succeed is decided by the operating system and is an input of the model
(`OS`).  Every library call appends a `Call` record to `Proc.trace`, so that
ordering properties can be stated.
-/

namespace Wrapper

/-- The six process credentials of a POSIX process (ids are `uid_t`/`gid_t` values). -/
structure Creds where
  ruid : Nat
  euid : Nat
  suid : Nat
  rgid : Nat
  egid : Nat
  sgid : Nat
  deriving DecidableEq, Repr

/-- The value `(gid_t)-1`: as an argument of `setregid` it means "leave unchanged". -/
def GID_UNCHANGED : Nat := 4294967295

/-- A group id a process can actually hold: a 32-bit value other than `(gid_t)-1`. -/
def validGid (g : Nat) : Prop := g < GID_UNCHANGED

instance (g : Nat) : Decidable (validGid g) := Nat.decLt g GID_UNCHANGED

/-- One C library call made by the program, with its arguments (and, for the
calls that return, the value returned).  `execv` also records what the kernel
sees at the attempt: the environment (`environ`) and the caller's credentials. -/
inductive Call where
  | getegid (ret : Nat)
  | setregid (rgid egid : Nat) (ret : Int)
  | execv (path : String) (argv : List String) (envp : List (String × String)) (creds : Creds)
  | perror (s : String)
  deriving DecidableEq, Repr

/-- The call is a `setregid`. -/
def Call.isSetregid : Call → Bool
  | .setregid _ _ _ => true
  | _ => false

/-- The call is an `execv`. -/
def Call.isExecv : Call → Bool
  | .execv _ _ _ _ => true
  | _ => false

/-- The call writes to a stream (of the four calls only `perror` does). -/
def Call.isWrite : Call → Bool
  | .perror _ => true
  | _ => false

/-- The call can change process state (`getegid` only reads). -/
def Call.mutates : Call → Bool
  | .getegid _ => false
  | _ => true

/-- The state of the launcher process. -/
structure Proc where
  creds : Creds
  env : List (String × String)
  errno : Nat
  stdout : String
  stderr : String
  trace : List Call
  deriving DecidableEq, Repr

/-- What the operating system decides: for `setregid` and `execv`, `none` means the
call succeeds and `some e` that it fails with `errno = e`; `strerror` is the C
library's table of error messages. -/
structure OS where
  setregidErr : Option Nat
  execvErr : Option Nat
  strerror : Nat → String

/-- How a run of `main` ends: the process image was replaced (`execv` did not
return), or `main` returned an exit status. -/
inductive Outcome where
  | replaced (path : String) (argv : List String) (envp : List (String × String))
  | returned (status : Int)
  deriving DecidableEq, Repr

/-- POSIX `getegid()`: returns the effective group id; always succeeds. -/
def getegid (p : Proc) : Nat × Proc :=
  (p.creds.egid, { p with trace := p.trace ++ [Call.getegid p.creds.egid] })

/-- The credential update of a successful `setregid(rgid, egid)`: an argument equal
to `(gid_t)-1` leaves that id unchanged; the saved set-group-id becomes the new
effective gid when the real gid is set or the effective gid is set to a value
other than the previous real gid. -/
def setregidCreds (rgid egid : Nat) (c : Creds) : Creds :=
  let newR := if rgid = GID_UNCHANGED then c.rgid else rgid
  let newE := if egid = GID_UNCHANGED then c.egid else egid
  let newS :=
    if rgid ≠ GID_UNCHANGED ∨ (egid ≠ GID_UNCHANGED ∧ egid ≠ c.rgid) then newE else c.sgid
  { c with rgid := newR, egid := newE, sgid := newS }

/-- POSIX `setregid(rgid, egid)`: on success updates the credentials and returns 0;
on failure changes no credential, sets `errno` and returns -1. -/
def setregid (os : OS) (rgid egid : Nat) (p : Proc) : Int × Proc :=
  match os.setregidErr with
  | none =>
    (0, { p with creds := setregidCreds rgid egid p.creds,
                 trace := p.trace ++ [Call.setregid rgid egid 0] })
  | some e =>
    (-1, { p with errno := e, trace := p.trace ++ [Call.setregid rgid egid (-1)] })

/-- POSIX `execv(path, argv)`: attempts to replace the process image, passing
`argv` and the current environment.  Returns `none` when the image was replaced
(the call does not return), and `some (-1)` with `errno` set when it failed. -/
def execv (os : OS) (path : String) (argv : List String) (p : Proc) : Option Int × Proc :=
  let q := { p with trace := p.trace ++ [Call.execv path argv p.env p.creds] }
  match os.execvErr with
  | none => (none, q)
  | some e => (some (-1), { q with errno := e })

/-- POSIX `perror(s)`: writes `s`, a colon and a blank (when `s` is not empty), the
message for the current `errno` and a newline to the standard error stream. -/
def perror (os : OS) (s : String) (p : Proc) : Proc :=
  let msg := if s = "" then os.strerror p.errno ++ "\n"
             else s ++ ": " ++ os.strerror p.errno ++ "\n"
  { p with stderr := p.stderr ++ msg, trace := p.trace ++ [Call.perror s] }

/-- The first statement of `main` (under the comment "Reset uid/gid"):
`setregid(getegid(), getegid());` with the result of `setregid` discarded. -/
def main_reset_gid (os : OS) (p : Proc) : Proc :=
  let (g1, p1) := getegid p
  let (g2, p2) := getegid p1
  (setregid os g1 g2 p2).2

/-- The program: `int main(int argc, char ** argv)` of `wrapper.c`. -/
def main (os : OS) (_argc : Int) (argv : List String) (p : Proc) : Outcome × Proc :=
  -- setregid(getegid(), getegid());
  let p1 := main_reset_gid os p
  -- execv("./script_wrapped", argv);
  match execv os "./script_wrapped" argv p1 with
  | (none, p2) => (Outcome.replaced "./script_wrapped" argv p2.env, p2)
  | (some _, p2) =>
    -- perror("execv"); return 1;
    let p3 := perror os "execv" p2
    (Outcome.returned 1, p3)

/-- The library calls made by one run of `main`, in order. -/
def callsMade (os : OS) (argc : Int) (argv : List String) (p : Proc) : List Call :=
  (main os argc argv p).2.trace.drop p.trace.length

/-- Names of environment variables that alter library, module or program resolution,
or the start-up of an interpreter (the spec's Step 2: "variables that influence
dynamic linking or interpreter behavior"), other than those recognised by their
first letters in `loaderInfluencing`. -/
def loaderVars : List String :=
  ["PATH", "GCONV_PATH", "LOCPATH", "NLSPATH",
   "PYTHONPATH", "PYTHONHOME", "PYTHONSTARTUP",
   "PERL5LIB", "PERLLIB", "PERL5OPT", "RUBYLIB", "RUBYOPT",
   "NODE_PATH", "NODE_OPTIONS", "CLASSPATH", "BASH_ENV", "ENV"]

/-- The variable can alter library/module resolution: every `LD_...` variable of the
dynamic loader (`LD_LIBRARY_PATH`, which the source comment names, `LD_PRELOAD`,
`LD_AUDIT`, ...), every `DYLD_...` variable, and the names of `loaderVars`. -/
def loaderInfluencing (name : String) : Bool :=
  name.data.take 3 == ['L', 'D', '_'] || name.data.take 5 == ['D', 'Y', 'L', 'D', '_'] ||
    loaderVars.contains name

/-- The spec's Step 2 condition: the environment holds no loader-influencing variable. -/
def envSanitized (envp : List (String × String)) : Bool :=
  envp.all fun kv => !(loaderInfluencing kv.1)

/-! ## Sample inputs -/

/-- A process started set-group-id: real gid 1000, effective gid 2000. -/
def sampleProc : Proc :=
  { creds := { ruid := 500, euid := 500, suid := 500, rgid := 1000, egid := 2000, sgid := 2000 },
    env := [("HOME", "/home/u")],
    errno := 0, stdout := "", stderr := "", trace := [] }

/-- A process started by a member of the group, so that no credential is elevated
(real gid = effective gid = 1000, real uid = effective uid): the program start-up
removes nothing from the inherited environment, which sets `LD_LIBRARY_PATH`. -/
def plainProc : Proc :=
  { creds := { ruid := 500, euid := 500, suid := 500, rgid := 1000, egid := 1000, sgid := 1000 },
    env := [("LD_LIBRARY_PATH", "/tmp/evil"), ("HOME", "/home/u")],
    errno := 0, stdout := "", stderr := "", trace := [] }

/-- An error-message table with two entries. -/
def sampleStrerror (e : Nat) : String :=
  if e = 2 then "No such file or directory" else if e = 1 then "Operation not permitted" else "Unknown error"

/-- Both calls succeed. -/
def osAllOk : OS := { setregidErr := none, execvErr := none, strerror := sampleStrerror }

/-- The target is missing: `execv` fails with `ENOENT` (2). -/
def osExecFails : OS := { setregidErr := none, execvErr := some 2, strerror := sampleStrerror }

/-- Both calls fail: `setregid` with `EPERM` (1) and `execv` with `ENOENT` (2). -/
def osBothFail : OS := { setregidErr := some 1, execvErr := some 2, strerror := sampleStrerror }

/-- The argument vector of the spec's example. -/
def sampleArgv : List String := ["prog", "a", "b c"]

/-! ## General facts about one run -/

/-- The return code recorded for the `setregid` call. -/
def setregidRet (os : OS) : Int :=
  match os.setregidErr with
  | none => 0
  | some _ => -1

/-- The credentials after the first statement of `main`. -/
def credsAtExec (os : OS) (c : Creds) : Creds :=
  match os.setregidErr with
  | none => setregidCreds c.egid c.egid c
  | some _ => c

/-- The text `perror("execv")` writes when `errno = e`. -/
def execvDiagnostic (os : OS) (e : Nat) : String :=
  "execv" ++ ": " ++ os.strerror e ++ "\n"

/-- The calls that follow the `execv` attempt. -/
def callsAfterExec (os : OS) : List Call :=
  match os.execvErr with
  | none => []
  | some _ => [Call.perror "execv"]

theorem main_reset_gid_creds (os : OS) (p : Proc) :
    (main_reset_gid os p).creds = credsAtExec os p.creds := by
  unfold main_reset_gid credsAtExec getegid setregid
  cases h : os.setregidErr <;> simp [h]

theorem main_reset_gid_trace (os : OS) (p : Proc) :
    (main_reset_gid os p).trace = p.trace ++
      [Call.getegid p.creds.egid, Call.getegid p.creds.egid,
       Call.setregid p.creds.egid p.creds.egid (setregidRet os)] := by
  unfold main_reset_gid setregidRet getegid setregid
  cases h : os.setregidErr <;> simp [h]

theorem main_reset_gid_frame (os : OS) (p : Proc) :
    (main_reset_gid os p).env = p.env ∧ (main_reset_gid os p).stdout = p.stdout ∧
      (main_reset_gid os p).stderr = p.stderr := by
  unfold main_reset_gid getegid setregid
  cases h : os.setregidErr <;> simp [h]

theorem main_trace (os : OS) (argc : Int) (argv : List String) (p : Proc) :
    (main os argc argv p).2.trace = p.trace ++
      ([Call.getegid p.creds.egid, Call.getegid p.creds.egid,
        Call.setregid p.creds.egid p.creds.egid (setregidRet os),
        Call.execv "./script_wrapped" argv p.env (credsAtExec os p.creds)]
        ++ callsAfterExec os) := by
  have hc := main_reset_gid_creds os p
  have ht := main_reset_gid_trace os p
  have hf := main_reset_gid_frame os p
  unfold main execv perror callsAfterExec
  cases h : os.execvErr <;> simp [h, hc, ht, hf]

theorem callsMade_eq (os : OS) (argc : Int) (argv : List String) (p : Proc) :
    callsMade os argc argv p =
      [Call.getegid p.creds.egid, Call.getegid p.creds.egid,
        Call.setregid p.creds.egid p.creds.egid (setregidRet os),
        Call.execv "./script_wrapped" argv p.env (credsAtExec os p.creds)]
        ++ callsAfterExec os := by
  unfold callsMade
  rw [main_trace]
  simp

theorem main_creds (os : OS) (argc : Int) (argv : List String) (p : Proc) :
    (main os argc argv p).2.creds = credsAtExec os p.creds := by
  have hc := main_reset_gid_creds os p
  unfold main execv perror
  cases h : os.execvErr <;> simp [h, hc]

theorem main_outcome (os : OS) (argc : Int) (argv : List String) (p : Proc) :
    (main os argc argv p).1 =
      match os.execvErr with
      | none => Outcome.replaced "./script_wrapped" argv p.env
      | some _ => Outcome.returned 1 := by
  have hf := main_reset_gid_frame os p
  unfold main execv perror
  cases h : os.execvErr <;> simp [h, hf]

theorem main_stdout (os : OS) (argc : Int) (argv : List String) (p : Proc) :
    (main os argc argv p).2.stdout = p.stdout := by
  have hf := main_reset_gid_frame os p
  unfold main execv perror
  cases h : os.execvErr <;> simp [h, hf]

theorem main_stderr (os : OS) (argc : Int) (argv : List String) (p : Proc) :
    (main os argc argv p).2.stderr =
      match os.execvErr with
      | none => p.stderr
      | some e => p.stderr ++ execvDiagnostic os e := by
  have hf := main_reset_gid_frame os p
  unfold main execv perror execvDiagnostic
  cases h : os.execvErr <;> simp [h, hf]

theorem credsAtExec_ok (os : OS) (c : Creds) (hok : os.setregidErr = none)
    (hv : validGid c.egid) :
    credsAtExec os c = { c with rgid := c.egid, sgid := c.egid } := by
  have hne : c.egid ≠ GID_UNCHANGED := Nat.ne_of_lt hv
  unfold credsAtExec setregidCreds
  simp [hok, hne]

theorem callsMade_execv (os : OS) (argc : Int) (argv : List String) (p : Proc) :
    (callsMade os argc argv p).filter Call.isExecv =
      [Call.execv "./script_wrapped" argv p.env (credsAtExec os p.creds)] := by
  rw [callsMade_eq]
  unfold callsAfterExec
  cases h : os.execvErr <;> simp [h, Call.isExecv]

theorem callsMade_write (os : OS) (argc : Int) (argv : List String) (p : Proc) :
    (callsMade os argc argv p).filter Call.isWrite = callsAfterExec os := by
  rw [callsMade_eq]
  unfold callsAfterExec
  cases h : os.execvErr <;> simp [h, Call.isWrite]

theorem callsMade_setregid (os : OS) (argc : Int) (argv : List String) (p : Proc) :
    (callsMade os argc argv p).filter Call.isSetregid =
      [Call.setregid p.creds.egid p.creds.egid (setregidRet os)] := by
  rw [callsMade_eq]
  unfold callsAfterExec
  cases h : os.execvErr <;> simp [h, Call.isSetregid]

theorem execvDiagnostic_length_pos (os : OS) (e : Nat) :
    0 < ("execv" ++ ": " ++ os.strerror e ++ "\n").length := by
  rw [String.length_append]
  exact Nat.lt_of_lt_of_le (by decide) (Nat.le_add_left _ _)

theorem setregidCreds_twice (c : Creds) :
    setregidCreds (setregidCreds c.egid c.egid c).egid (setregidCreds c.egid c.egid c).egid
      (setregidCreds c.egid c.egid c) = setregidCreds c.egid c.egid c := by
  unfold setregidCreds
  by_cases h : c.egid = GID_UNCHANGED <;> simp [h]

/-! ## The claims -/

/-- C1: for every initial credential pair (real gid r, effective gid e, with e a
group id a process can hold), when the `setregid` call succeeds, the single exec
attempt of `main` is made by a process whose effective gid equals its real gid. -/
theorem main_exec_egid_eq_rgid (os : OS) (argc : Int) (argv : List String) (p : Proc)
    (hok : os.setregidErr = none) (hv : validGid p.creds.egid) :
    ∃ c : Creds,
      (callsMade os argc argv p).filter Call.isExecv =
        [Call.execv "./script_wrapped" argv p.env c] ∧
      c.egid = c.rgid ∧ (main os argc argv p).2.creds = c := by
  refine ⟨credsAtExec os p.creds, callsMade_execv os argc argv p, ?_, main_creds os argc argv p⟩
  rw [credsAtExec_ok os p.creds hok hv]

theorem main_exec_egid_eq_rgid_witness :
    sampleProc.creds.egid ≠ sampleProc.creds.rgid ∧
    ∃ c : Creds,
      (callsMade osAllOk 3 sampleArgv sampleProc).filter Call.isExecv =
        [Call.execv "./script_wrapped" sampleArgv sampleProc.env c] ∧
      c.egid = c.rgid ∧ (main osAllOk 3 sampleArgv sampleProc).2.creds = c :=
  ⟨by decide, main_exec_egid_eq_rgid osAllOk 3 sampleArgv sampleProc rfl (by decide)⟩

/-- C2 as stated fails: started with real gid 1000 and effective gid 2000, and with
`setregid` succeeding, the step leaves effective gid 2000 (not the real gid 1000)
and the real gid is no longer 1000. -/
theorem main_reset_gid_not_to_rgid :
    osAllOk.setregidErr = none ∧
    sampleProc.creds.rgid = 1000 ∧ sampleProc.creds.egid = 2000 ∧
    (main_reset_gid osAllOk sampleProc).creds.egid = 2000 ∧
    (main_reset_gid osAllOk sampleProc).creds.rgid = 2000 ∧
    ¬ ((main_reset_gid osAllOk sampleProc).creds.egid = sampleProc.creds.rgid ∧
       (main_reset_gid osAllOk sampleProc).creds.rgid = sampleProc.creds.rgid) := by
  decide

/-- C2 amended: for every initial credential pair (real gid r, effective gid e, with
e a group id a process can hold), when the `setregid` call succeeds, the
credential step of `main` sets the real gid to the initial effective gid e: after
the step the real gid is e and the effective gid is still e. -/
theorem main_reset_gid_sets_rgid_to_egid (os : OS) (p : Proc)
    (hok : os.setregidErr = none) (hv : validGid p.creds.egid) :
    (main_reset_gid os p).creds.rgid = p.creds.egid ∧
    (main_reset_gid os p).creds.egid = p.creds.egid := by
  rw [main_reset_gid_creds, credsAtExec_ok os p.creds hok hv]
  exact ⟨rfl, rfl⟩

theorem main_reset_gid_sets_rgid_to_egid_witness :
    (main_reset_gid osAllOk sampleProc).creds.rgid = 2000 ∧
    (main_reset_gid osAllOk sampleProc).creds.egid = 2000 :=
  main_reset_gid_sets_rgid_to_egid osAllOk sampleProc rfl (by decide)

/-- C3: for every argument vector, `main` makes exactly one exec attempt, on the
fixed path "./script_wrapped" with the argument vector it received, unchanged; when
the exec succeeds the new image is that path with that argument vector. -/
theorem main_exec_argv_unchanged (os : OS) (argc : Int) (argv : List String) (p : Proc) :
    (∃ c : Creds, (callsMade os argc argv p).filter Call.isExecv =
        [Call.execv "./script_wrapped" argv p.env c]) ∧
    (main os argc argv p).1 =
      match os.execvErr with
      | none => Outcome.replaced "./script_wrapped" argv p.env
      | some _ => Outcome.returned 1 :=
  ⟨⟨credsAtExec os p.creds, callsMade_execv os argc argv p⟩, main_outcome os argc argv p⟩

/-- C4: when the exec fails with error e, `main` returns 1, appends the non-empty text
"execv: " followed by the system message for e and a newline to the error stream,
leaves standard output alone, made one exec attempt and one write (the `perror`);
and `main` returns 1 only when the exec failed. -/
theorem main_exec_failure_reported (os : OS) (argc : Int) (argv : List String) (p : Proc) :
    (∀ e : Nat, os.execvErr = some e →
      (main os argc argv p).1 = Outcome.returned 1 ∧
      (main os argc argv p).2.stderr = p.stderr ++ ("execv" ++ ": " ++ os.strerror e ++ "\n") ∧
      0 < ("execv" ++ ": " ++ os.strerror e ++ "\n").length ∧
      (main os argc argv p).2.stdout = p.stdout ∧
      ((callsMade os argc argv p).filter Call.isExecv).length = 1 ∧
      (callsMade os argc argv p).filter Call.isWrite = [Call.perror "execv"]) ∧
    ((main os argc argv p).1 = Outcome.returned 1 ↔ os.execvErr ≠ none) := by
  constructor
  · intro e he
    refine ⟨?_, ?_, execvDiagnostic_length_pos os e, main_stdout os argc argv p, ?_, ?_⟩
    · rw [main_outcome, he]
    · rw [main_stderr, he]; rfl
    · rw [callsMade_execv]; rfl
    · rw [callsMade_write]; unfold callsAfterExec; rw [he]
  · rw [main_outcome]
    cases h : os.execvErr <;> simp

theorem main_exec_failure_reported_witness :
    (main osExecFails 3 sampleArgv sampleProc).1 = Outcome.returned 1 ∧
    (main osExecFails 3 sampleArgv sampleProc).2.stderr =
      sampleProc.stderr ++ ("execv" ++ ": " ++ osExecFails.strerror 2 ++ "\n") ∧
    0 < ("execv" ++ ": " ++ osExecFails.strerror 2 ++ "\n").length ∧
    (main osExecFails 3 sampleArgv sampleProc).2.stdout = sampleProc.stdout ∧
    ((callsMade osExecFails 3 sampleArgv sampleProc).filter Call.isExecv).length = 1 ∧
    (callsMade osExecFails 3 sampleArgv sampleProc).filter Call.isWrite = [Call.perror "execv"] :=
  (main_exec_failure_reported osExecFails 3 sampleArgv sampleProc).1 2 rfl

/-- C5 fails on the code: a process started with real gid = effective gid = 1000 and
`LD_LIBRARY_PATH` in its environment reaches `main` with that variable set; `main`
attempts the exec with the inherited environment unchanged, `LD_LIBRARY_PATH`
included, and the new image receives it. -/
theorem main_exec_env_unsanitized :
    plainProc.creds.rgid = plainProc.creds.egid ∧
    plainProc.creds.ruid = plainProc.creds.euid ∧
    (callsMade osAllOk 3 sampleArgv plainProc).filter Call.isExecv =
      [Call.execv "./script_wrapped" ["prog", "a", "b c"]
        [("LD_LIBRARY_PATH", "/tmp/evil"), ("HOME", "/home/u")]
        { ruid := 500, euid := 500, suid := 500, rgid := 1000, egid := 1000, sgid := 1000 }] ∧
    (main osAllOk 3 sampleArgv plainProc).1 =
      Outcome.replaced "./script_wrapped" ["prog", "a", "b c"]
        [("LD_LIBRARY_PATH", "/tmp/evil"), ("HOME", "/home/u")] ∧
    envSanitized [("LD_LIBRARY_PATH", "/tmp/evil"), ("HOME", "/home/u")] = false := by
  decide

/-- C6: in every run the calls of `main` are, in this order: the two `getegid` reads,
the `setregid` call, the `execv` attempt and, only when the exec failed, the
`perror` write.  So `setregid` is never skipped, nothing that changes state comes
before it, and the exec and the diagnostic come after it. -/
theorem main_setregid_before_exec (os : OS) (argc : Int) (argv : List String) (p : Proc) :
    ∃ (ret : Int) (c : Creds) (rest : List Call),
      callsMade os argc argv p =
        [Call.getegid p.creds.egid, Call.getegid p.creds.egid,
         Call.setregid p.creds.egid p.creds.egid ret,
         Call.execv "./script_wrapped" argv p.env c] ++ rest ∧
      (rest = [] ∨ rest = [Call.perror "execv"]) ∧
      (callsMade os argc argv p).filter Call.mutates =
        [Call.setregid p.creds.egid p.creds.egid ret,
         Call.execv "./script_wrapped" argv p.env c] ++ rest := by
  refine ⟨setregidRet os, credsAtExec os p.creds, callsAfterExec os,
    callsMade_eq os argc argv p, ?_, ?_⟩
  · unfold callsAfterExec
    cases os.execvErr <;> simp
  · rw [callsMade_eq]
    unfold callsAfterExec
    cases os.execvErr <;> simp [Call.mutates]

/-- C7: for every input and both outcomes of the exec, `main` leaves the standard
output stream as it was; the error stream is unchanged when the exec succeeds and
gains exactly the `perror` diagnostic when it fails. -/
theorem main_never_writes_stdout (os : OS) (argc : Int) (argv : List String) (p : Proc) :
    (main os argc argv p).2.stdout = p.stdout ∧
    (main os argc argv p).2.stderr =
      (match os.execvErr with
       | none => p.stderr
       | some e => p.stderr ++ ("execv" ++ ": " ++ os.strerror e ++ "\n")) ∧
    (callsMade os argc argv p).filter Call.isWrite =
      (match os.execvErr with
       | none => []
       | some _ => [Call.perror "execv"]) :=
  ⟨main_stdout os argc argv p, main_stderr os argc argv p, callsMade_write os argc argv p⟩

/-- C8: for every initial state, the real, effective and saved user ids of the process
at the exec attempt (and in the final state) are those at process start. -/
theorem main_uids_unchanged (os : OS) (argc : Int) (argv : List String) (p : Proc) :
    ∃ c : Creds,
      (callsMade os argc argv p).filter Call.isExecv =
        [Call.execv "./script_wrapped" argv p.env c] ∧
      (main os argc argv p).2.creds = c ∧
      c.ruid = p.creds.ruid ∧ c.euid = p.creds.euid ∧ c.suid = p.creds.suid := by
  refine ⟨credsAtExec os p.creds, callsMade_execv os argc argv p, main_creds os argc argv p, ?_⟩
  unfold credsAtExec setregidCreds
  cases os.setregidErr <;> simp

/-- C9: the result of `setregid` is not checked.  Two runs that differ only in whether
`setregid` succeeds (same exec outcome, same message table) end the same way, with the
same error and output streams and the same writes, and both attempt the exec on the
same path, argument vector and environment; when `setregid` fails the exec is
attempted with the credentials the process started with. -/
theorem main_setregid_result_unchecked (os1 os2 : OS) (argc : Int) (argv : List String)
    (p : Proc) (hx : os1.execvErr = os2.execvErr) (hs : os1.strerror = os2.strerror) :
    (main os1 argc argv p).1 = (main os2 argc argv p).1 ∧
    (main os1 argc argv p).2.stderr = (main os2 argc argv p).2.stderr ∧
    (main os1 argc argv p).2.stdout = (main os2 argc argv p).2.stdout ∧
    (callsMade os1 argc argv p).filter Call.isWrite =
      (callsMade os2 argc argv p).filter Call.isWrite ∧
    (∃ c1 c2 : Creds,
      (callsMade os1 argc argv p).filter Call.isExecv =
        [Call.execv "./script_wrapped" argv p.env c1] ∧
      (callsMade os2 argc argv p).filter Call.isExecv =
        [Call.execv "./script_wrapped" argv p.env c2] ∧
      (os1.setregidErr ≠ none → c1 = p.creds)) := by
  refine ⟨?_, ?_, ?_, ?_, credsAtExec os1 p.creds, credsAtExec os2 p.creds,
    callsMade_execv os1 argc argv p, callsMade_execv os2 argc argv p, ?_⟩
  · rw [main_outcome, main_outcome, hx]
  · rw [main_stderr, main_stderr, hx]
    unfold execvDiagnostic
    rw [hs]
  · rw [main_stdout, main_stdout]
  · rw [callsMade_write, callsMade_write]
    unfold callsAfterExec
    rw [hx]
  · intro hne
    unfold credsAtExec
    cases h : os1.setregidErr with
    | none => exact absurd h hne
    | some _ => rfl

theorem main_setregid_result_unchecked_witness :
    osBothFail.setregidErr ≠ osExecFails.setregidErr ∧
    (main osBothFail 3 sampleArgv sampleProc).1 = (main osExecFails 3 sampleArgv sampleProc).1 ∧
    (main osBothFail 3 sampleArgv sampleProc).2.stderr =
      (main osExecFails 3 sampleArgv sampleProc).2.stderr ∧
    (main osBothFail 3 sampleArgv sampleProc).2.stdout =
      (main osExecFails 3 sampleArgv sampleProc).2.stdout ∧
    (callsMade osBothFail 3 sampleArgv sampleProc).filter Call.isWrite =
      (callsMade osExecFails 3 sampleArgv sampleProc).filter Call.isWrite ∧
    (∃ c1 c2 : Creds,
      (callsMade osBothFail 3 sampleArgv sampleProc).filter Call.isExecv =
        [Call.execv "./script_wrapped" sampleArgv sampleProc.env c1] ∧
      (callsMade osExecFails 3 sampleArgv sampleProc).filter Call.isExecv =
        [Call.execv "./script_wrapped" sampleArgv sampleProc.env c2] ∧
      (osBothFail.setregidErr ≠ none → c1 = sampleProc.creds)) :=
  ⟨by decide, main_setregid_result_unchecked osBothFail osExecFails 3 sampleArgv sampleProc rfl rfl⟩

/-- C10: for every initial credential pair (real gid r, effective gid e), `main` calls
`setregid` once, with both arguments equal to e; when the call succeeds (e being a
group id a process can hold) the real and the effective gid are both e afterwards;
and running the credential step a second time changes no credential and nothing
else of the process state but the record of calls. -/
theorem main_setregid_args_are_egid (os : OS) (argc : Int) (argv : List String) (p : Proc) :
    (∃ ret : Int, (callsMade os argc argv p).filter Call.isSetregid =
        [Call.setregid p.creds.egid p.creds.egid ret]) ∧
    (os.setregidErr = none → validGid p.creds.egid →
      (main os argc argv p).2.creds.rgid = p.creds.egid ∧
      (main os argc argv p).2.creds.egid = p.creds.egid) ∧
    (main_reset_gid os (main_reset_gid os p)).creds = (main_reset_gid os p).creds ∧
    (main_reset_gid os (main_reset_gid os p)).errno = (main_reset_gid os p).errno ∧
    (main_reset_gid os (main_reset_gid os p)).env = (main_reset_gid os p).env ∧
    (main_reset_gid os (main_reset_gid os p)).stdout = (main_reset_gid os p).stdout ∧
    (main_reset_gid os (main_reset_gid os p)).stderr = (main_reset_gid os p).stderr := by
  refine ⟨⟨setregidRet os, callsMade_setregid os argc argv p⟩, ?_, ?_, ?_, ?_, ?_, ?_⟩
  · intro hok hv
    rw [main_creds, credsAtExec_ok os p.creds hok hv]
    exact ⟨rfl, rfl⟩
  · rw [main_reset_gid_creds, main_reset_gid_creds]
    unfold credsAtExec
    cases os.setregidErr with
    | none => exact setregidCreds_twice p.creds
    | some _ => rfl
  · unfold main_reset_gid getegid setregid
    cases h : os.setregidErr <;> simp [h]
  · exact (main_reset_gid_frame os (main_reset_gid os p)).1
  · exact (main_reset_gid_frame os (main_reset_gid os p)).2.1
  · exact (main_reset_gid_frame os (main_reset_gid os p)).2.2

theorem main_setregid_args_are_egid_witness :
    sampleProc.creds.rgid = 1000 ∧ sampleProc.creds.egid = 2000 ∧
    (main osAllOk 3 sampleArgv sampleProc).2.creds.rgid = 2000 ∧
    (main osAllOk 3 sampleArgv sampleProc).2.creds.egid = 2000 :=
  ⟨rfl, rfl, (main_setregid_args_are_egid osAllOk 3 sampleArgv sampleProc).2.1 rfl (by decide)⟩

end Wrapper
